import Mathlib

/-!
Verification of the multi-provider LLM dispatch client and the
environment-driven provider resolver of the appraisal repository.

The TypeScript source (`LLMClient`, `createLLMClientFromEnv`,
`createConfigForProvider`) is shallowly embedded below:

* the process environment becomes an explicit map `Env := String → Option String`
  (`none` models an unset variable, `some ""` a variable set to the empty string);
* JavaScript truthiness of an optional string (`!!x`, `if (x)`, `x ? a : b`,
  `x || d`) is the predicate `truthyStr`;
* JSON values returned by `response.json()` and the values JavaScript
  expressions evaluate to (including `undefined`) are the inductive `JsVal`;
* each `callX` adapter is split into its request-building phase
  (`buildRequest`: the fail-fast required-field checks and endpoint
  resolution, everything the code does before `fetch`) and its
  response-handling phase (`handleResponse`: the `response.ok` check and the
  provider-specific text extraction). The network itself is an explicit
  function argument `net : Request → HttpResponse`, so `callLLM` is a pure
  function of the configuration, the prompt and the network's behaviour.

Thrown `Error`s are modelled by `LLMError`, tagged by throw site:
`configError` for the "not configured" fail-fast throws, `providerError` for
the non-2xx throws, `unsupported` for the Apigee stub throw, and `typeError`
for JavaScript `TypeError`s raised while navigating a response body.
-/

namespace Appraisal

/-- The provider enum of the source (`LLMProvider`); `local_` renders the
source's `LOCAL` variant (`local` is reserved in Lean). -/
inductive LLMProvider where
  | openai
  | anthropic
  | gemini
  | ollama
  | local_
  | enterprise
  | apigee
deriving DecidableEq, Repr

/-- The `LLMConfig` interface of the source. `temperature` and `maxTokens`
are the results of JavaScript `parseFloat` / `parseInt`, with `none`
standing for `NaN`; `apiKey` and `baseUrl` are optional exactly as in the
source. -/
structure LLMConfig where
  provider : LLMProvider
  model : String
  apiKey : Option String := none
  baseUrl : Option String := none
  temperature : Option ℚ
  maxTokens : Option ℤ
  timeout : ℕ
deriving DecidableEq, Repr

/-- JavaScript truthiness of an optional string: `undefined` and `""` are
falsy, every other string is truthy. -/
def truthyStr : Option String → Bool
  | none => false
  | some s => s ≠ ""

/-- The source's `LLMClient.isAvailable()`: a pure switch on the provider
(the embedding is a total function of the configuration alone — by
construction it performs no I/O). -/
def LLMClient.isAvailable (config : LLMConfig) : Bool :=
  match config.provider with
  | .openai | .anthropic | .gemini => truthyStr config.apiKey
  | .local_ | .ollama => truthyStr config.baseUrl
  | .enterprise => truthyStr config.baseUrl && truthyStr config.apiKey
  | .apigee => false

/-! ## Environment-driven configuration (`createConfigForProvider`,
`createLLMClientFromEnv`) -/

/-- The process environment, made explicit: `none` is an unset variable. -/
def Env : Type := String → Option String

/-- JavaScript `v || d` for an environment read feeding a string field:
the default is taken when the variable is unset or set to `""`. -/
def orDefault (v : Option String) (d : String) : String :=
  match v with
  | some s => if s = "" then d else s
  | none => d

/-- Value of a digit list read in base 10 (helper for the parse functions). -/
def natOfDigits (cs : List Char) : ℕ :=
  cs.foldl (fun a c => a * 10 + (c.toNat - 48)) 0

/-- JavaScript `parseFloat`, on the shapes the source feeds it (an optional
sign, then a decimal literal, parsed as the longest prefix): the result is a
rational, with `none` for `NaN` (no digit found). Exponents and `Infinity`
are not modelled — the source only parses environment overrides and the
literal defaults `"0.1"` etc. -/
def parseFloat (s : String) : Option ℚ :=
  let cs := s.data.dropWhile (fun c => c = ' ')
  let sign : ℚ × List Char :=
    match cs with
    | '-' :: rest => (-1, rest)
    | '+' :: rest => (1, rest)
    | _ => (1, cs)
  let intPart := sign.2.takeWhile Char.isDigit
  let rest := sign.2.dropWhile Char.isDigit
  let fracPart :=
    match rest with
    | '.' :: rest' => rest'.takeWhile Char.isDigit
    | _ => []
  if intPart.isEmpty ∧ fracPart.isEmpty then none
  else some (sign.1 * ((natOfDigits intPart : ℚ) +
    (natOfDigits fracPart : ℚ) / (10 : ℚ) ^ fracPart.length))

/-- JavaScript `parseInt` with no radix argument, on decimal input: an
optional sign then the longest digit prefix; `none` for `NaN`. -/
def parseInt (s : String) : Option ℤ :=
  let cs := s.data.dropWhile (fun c => c = ' ')
  let sign : ℤ × List Char :=
    match cs with
    | '-' :: rest => (-1, rest)
    | '+' :: rest => (1, rest)
    | _ => (1, cs)
  let ds := sign.2.takeWhile Char.isDigit
  if ds.isEmpty then none else some (sign.1 * (natOfDigits ds : ℤ))

/-- The source's `createConfigForProvider`: builds the configuration for one
provider from the environment. The `default` branch of the source's switch
throws (`Unsupported provider`); that outcome is `none`. The Apigee variant
is not one of the switch's listed cases, so it falls to that branch. -/
def createConfigForProvider (provider : LLMProvider) (env : Env) :
    Option LLMConfig :=
  match provider with
  | .openai => some {
      provider := .openai
      model := orDefault (env "OPENAI_MODEL") "gpt-4"
      apiKey := env "OPENAI_API_KEY"
      baseUrl := env "OPENAI_BASE_URL"
      temperature := parseFloat (orDefault (env "OPENAI_TEMPERATURE") "0.1")
      maxTokens := parseInt (orDefault (env "OPENAI_MAX_TOKENS") "4000")
      timeout := 300 }
  | .anthropic => some {
      provider := .anthropic
      model := orDefault (env "ANTHROPIC_MODEL") "claude-3-sonnet-20240229"
      apiKey := env "ANTHROPIC_API_KEY"
      baseUrl := env "ANTHROPIC_BASE_URL"
      temperature := parseFloat (orDefault (env "ANTHROPIC_TEMPERATURE") "0.1")
      maxTokens := parseInt (orDefault (env "ANTHROPIC_MAX_TOKENS") "4000")
      timeout := 300 }
  | .gemini => some {
      provider := .gemini
      model := orDefault (env "GEMINI_MODEL") "gemini-pro"
      apiKey := env "GEMINI_API_KEY"
      baseUrl := env "GEMINI_BASE_URL"
      temperature := parseFloat (orDefault (env "GEMINI_TEMPERATURE") "0.1")
      maxTokens := parseInt (orDefault (env "GEMINI_MAX_TOKENS") "4000")
      timeout := 300 }
  | .local_ => some {
      provider := .local_
      model := orDefault (env "LOCAL_LLM_MODEL") "llama-3.2-3b-instruct"
      apiKey := env "LOCAL_LLM_API_KEY"
      baseUrl := some (orDefault (env "LOCAL_LLM_URL") "http://localhost:1234/v1")
      temperature := parseFloat (orDefault (env "LOCAL_LLM_TEMPERATURE") "0.1")
      maxTokens := parseInt (orDefault (env "LOCAL_LLM_MAX_TOKENS") "40000")
      timeout := 300 }
  | .ollama => some {
      provider := .ollama
      model := orDefault (env "OLLAMA_MODEL") "llama-3.2-3b-instruct"
      apiKey := none
      baseUrl := some (orDefault (env "OLLAMA_HOST") "http://localhost:11434")
      temperature := parseFloat (orDefault (env "OLLAMA_TEMPERATURE") "0.1")
      maxTokens := parseInt (orDefault (env "OLLAMA_NUM_PREDICT") "4000")
      timeout := 300 }
  | .enterprise => some {
      provider := .enterprise
      model := orDefault (env "ENTERPRISE_LLM_MODEL") "llama-3.2-3b-instruct"
      apiKey := env "ENTERPRISE_LLM_API_KEY"
      baseUrl := env "ENTERPRISE_LLM_URL"
      temperature := parseFloat (orDefault (env "ENTERPRISE_LLM_TEMPERATURE") "0.1")
      maxTokens := parseInt (orDefault (env "ENTERPRISE_LLM_MAX_TOKENS") "4000")
      timeout := 300 }
  | .apigee => none

/-- One entry of the resolver's fixed candidate list. -/
structure Candidate where
  provider : LLMProvider
  envKey : String
deriving DecidableEq, Repr

/-- The resolver's fixed, ordered candidate list (`providers` in the
source). -/
def envProviders : List Candidate :=
  [⟨.openai, "OPENAI_API_KEY"⟩,
   ⟨.anthropic, "ANTHROPIC_API_KEY"⟩,
   ⟨.gemini, "GEMINI_API_KEY"⟩,
   ⟨.enterprise, "ENTERPRISE_LLM_URL"⟩,
   ⟨.local_, "LOCAL_LLM_URL"⟩,
   ⟨.ollama, "OLLAMA_HOST"⟩]

/-- The resolver's loop over a candidate list: skip a candidate whose
environment key is falsy; build its configuration (a throw — `none` — is
caught, logged and skipped); return the configuration if available, else
fall through to the next candidate. -/
def scanProviders : List Candidate → Env → Option LLMConfig
  | [], _ => none
  | c :: rest, env =>
    if truthyStr (env c.envKey) then
      match createConfigForProvider c.provider env with
      | some config =>
        if LLMClient.isAvailable config then some config
        else scanProviders rest env
      | none => scanProviders rest env
    else scanProviders rest env

/-- The source's `createLLMClientFromEnv`: scan the fixed candidate list;
`none` is the source's `null` ("no client"). The returned client is
identified with its configuration (the `LLMClient` class holds nothing
else). -/
def createLLMClientFromEnv (env : Env) : Option LLMConfig :=
  scanProviders envProviders env

/-! ## The dispatch client (`callLLM` and the seven adapters) -/

/-- JavaScript values as far as the adapters manipulate them: the JSON
values `response.json()` can produce, plus `undefined`, which property
access on a missing field evaluates to. -/
inductive JsVal where
  | undefined
  | null
  | jsBool (b : Bool)
  | num (q : Option ℚ)
  | str (s : String)
  | arr (elems : List JsVal)
  | obj (fields : List (String × JsVal))
deriving Repr

/-- JavaScript truthiness of a `JsVal` (`num none` is `NaN`, which is
falsy). -/
def JsVal.truthy : JsVal → Bool
  | .undefined => false
  | .null => false
  | .jsBool b => b
  | .num (some q) => q ≠ 0
  | .num none => false
  | .str s => s ≠ ""
  | .arr _ => true
  | .obj _ => true

/-- Property access `v.k`: a `TypeError` on `undefined` and `null`, the
field's value (or `undefined` when absent) on an object, and `undefined` on
the primitives (prototype properties are not modelled — the fields the
adapters read are data fields). -/
def JsVal.getField : JsVal → String → Except String JsVal
  | .undefined, k => .error ("TypeError: cannot read " ++ k ++ " of undefined")
  | .null, k => .error ("TypeError: cannot read " ++ k ++ " of null")
  | .obj fields, k =>
    .ok (match fields.lookup k with
      | some v => v
      | none => .undefined)
  | _, _ => .ok .undefined

/-- Index access `v[i]`: a `TypeError` on `undefined`/`null`, the element
(or `undefined` out of bounds) on an array, `undefined` on the rest. -/
def JsVal.getIndex : JsVal → ℕ → Except String JsVal
  | .undefined, i => .error ("TypeError: cannot read " ++ toString i ++ " of undefined")
  | .null, i => .error ("TypeError: cannot read " ++ toString i ++ " of null")
  | .arr elems, i => .ok (elems.getD i .undefined)
  | _, _ => .ok .undefined

/-- Errors thrown by `callLLM`, tagged by throw site: the fail-fast
"not configured" throws, the non-2xx throws (status and status text kept in
the message exactly as the source interpolates them), the Apigee stub
throw, and `TypeError`s raised while navigating a response body. -/
inductive LLMError where
  | configError (msg : String)
  | providerError (msg : String)
  | unsupported (msg : String)
  | typeError (msg : String)
deriving DecidableEq, Repr

/-- The outbound HTTP request an adapter hands to `fetch`: the resolved
endpoint, the headers, and the payload object passed to `JSON.stringify`
(all adapters use method POST). -/
structure Request where
  url : String
  headers : List (String × String)
  payload : JsVal
deriving Repr

/-- The `max_tokens` number as it appears in a payload. -/
def jsMaxTokens (mt : Option ℤ) : JsVal := .num (mt.map (fun i => (i : ℚ)))

/-- The chat-style message list `[{role: "user", content: prompt}]` shared
by the OpenAI, Anthropic, Ollama and Local payloads. -/
def userMessages (prompt : String) : JsVal :=
  .arr [.obj [("role", .str "user"), ("content", .str prompt)]]

/-- What the adapters observe of a `fetch` result: `ok` (2xx), the status
pair used in error messages, and the parsed JSON body. -/
structure HttpResponse where
  ok : Bool
  status : ℕ
  statusText : String
  body : JsVal

/-- The string a guarded-truthy optional interpolates to (every use below
sits under a truthiness check, so the `""` default is never taken). -/
def strOf (o : Option String) : String := o.getD ""

/-- Endpoint ternary `baseUrl ? baseUrl + suffix : default` shared by the
OpenAI, Anthropic and Ollama adapters. -/
def ternaryUrl (baseUrl : Option String) (suffix dflt : String) : String :=
  match baseUrl with
  | some b => if b = "" then dflt else b ++ suffix
  | none => dflt

/-- The request-building phase of each `callX` adapter: everything the
source does before `fetch` — the fail-fast required-field checks and the
endpoint/header resolution. `callApigee` throws before building anything,
and an unlisted provider would hit `callLLM`'s default throw; both are
errors here. -/
def buildRequest (cfg : LLMConfig) (prompt : String) : Except LLMError Request :=
  match cfg.provider with
  | .openai =>
    if ¬ truthyStr cfg.apiKey then
      .error (.configError "OpenAI API key not configured")
    else
      .ok { url := ternaryUrl cfg.baseUrl "/v1/chat/completions"
                      "https://api.openai.com/v1/chat/completions",
            headers := [("Content-Type", "application/json"),
                        ("Authorization", "Bearer " ++ strOf cfg.apiKey)],
            payload := .obj [("model", .str cfg.model),
                             ("messages", userMessages prompt),
                             ("temperature", .num cfg.temperature),
                             ("max_tokens", jsMaxTokens cfg.maxTokens)] }
  | .anthropic =>
    if ¬ truthyStr cfg.apiKey then
      .error (.configError "Anthropic API key not configured")
    else
      .ok { url := ternaryUrl cfg.baseUrl "/v1/messages"
                      "https://api.anthropic.com/v1/messages",
            headers := [("Content-Type", "application/json"),
                        ("x-api-key", strOf cfg.apiKey),
                        ("anthropic-version", "2023-06-01")],
            payload := .obj [("model", .str cfg.model),
                             ("messages", userMessages prompt),
                             ("temperature", .num cfg.temperature),
                             ("max_tokens", jsMaxTokens cfg.maxTokens)] }
  | .gemini =>
    if ¬ truthyStr cfg.apiKey then
      .error (.configError "Google Gemini API key not configured")
    else
      .ok { url := "https://generativelanguage.googleapis.com/v1beta/models/"
                    ++ cfg.model ++ ":generateContent?key=" ++ strOf cfg.apiKey,
            headers := [("Content-Type", "application/json")],
            payload := .obj [("contents",
                               .arr [.obj [("parts", .arr [.obj [("text", .str prompt)]])]]),
                             ("generationConfig",
                               .obj [("temperature", .num cfg.temperature),
                                     ("maxOutputTokens", jsMaxTokens cfg.maxTokens)])] }
  | .ollama =>
    .ok { url := ternaryUrl cfg.baseUrl "/api/chat"
                    "http://localhost:11434/api/chat",
          headers := [("Content-Type", "application/json")],
          payload := .obj [("model", .str cfg.model),
                           ("messages", userMessages prompt),
                           ("temperature", .num cfg.temperature)] }
  | .local_ =>
    if ¬ truthyStr cfg.baseUrl then
      .error (.configError "Local LLM base URL not configured")
    else
      .ok { url := strOf cfg.baseUrl ++ "/v1/chat/completions",
            headers := ("Content-Type", "application/json") ::
              (if truthyStr cfg.apiKey then
                [("Authorization", "Bearer " ++ strOf cfg.apiKey)]
              else []),
            payload := .obj [("model", .str cfg.model),
                             ("messages", userMessages prompt),
                             ("temperature", .num cfg.temperature),
                             ("max_tokens", jsMaxTokens cfg.maxTokens)] }
  | .enterprise =>
    if ¬ truthyStr cfg.baseUrl then
      .error (.configError "Enterprise LLM base URL not configured")
    else
      .ok { url := strOf cfg.baseUrl,
            headers := ("Content-Type", "application/json") ::
              (if truthyStr cfg.apiKey then
                [("Authorization", "Bearer " ++ strOf cfg.apiKey)]
              else []),
            payload := .obj [("model", .str cfg.model),
                             ("prompt", .str prompt),
                             ("temperature", .num cfg.temperature),
                             ("max_tokens", jsMaxTokens cfg.maxTokens)] }
  | .apigee =>
    .error (.unsupported "Apigee integration requires additional configuration")

/-- `data.choices[0].message.content` (OpenAI and Local adapters). -/
def extractOpenAI (data : JsVal) : Except String JsVal := do
  let choices ← data.getField "choices"
  let c0 ← choices.getIndex 0
  let msg ← c0.getField "message"
  msg.getField "content"

/-- `data.content[0].text` (Anthropic adapter). -/
def extractAnthropic (data : JsVal) : Except String JsVal := do
  let content ← data.getField "content"
  let c0 ← content.getIndex 0
  c0.getField "text"

/-- `data.candidates[0].content.parts[0].text` (Gemini adapter). -/
def extractGemini (data : JsVal) : Except String JsVal := do
  let cands ← data.getField "candidates"
  let c0 ← cands.getIndex 0
  let content ← c0.getField "content"
  let parts ← content.getField "parts"
  let p0 ← parts.getIndex 0
  p0.getField "text"

/-- `data.message.content` (Ollama adapter). -/
def extractOllama (data : JsVal) : Except String JsVal := do
  let msg ← data.getField "message"
  msg.getField "content"

/-- `data.response || data.text || data.content` (Enterprise adapter):
JavaScript `||` short-circuits on the first truthy operand and otherwise
evaluates to the last operand's value — whatever it is, `undefined`
included. -/
def extractEnterprise (data : JsVal) : Except String JsVal :=
  match data.getField "response" with
  | .error e => .error e
  | .ok r =>
    if r.truthy then .ok r
    else
      match data.getField "text" with
      | .error e => .error e
      | .ok t =>
        if t.truthy then .ok t
        else data.getField "content"

/-- The provider-specific label interpolated into the non-2xx error
message. -/
def providerErrorLabel : LLMProvider → String
  | .openai => "OpenAI API error"
  | .anthropic => "Anthropic API error"
  | .gemini => "Gemini API error"
  | .ollama => "Ollama API error"
  | .local_ => "Local LLM API error"
  | .enterprise => "Enterprise LLM error"
  | .apigee => ""

/-- The response-handling phase of each adapter: throw on a non-2xx
response, else extract the provider's text path from the parsed body. The
extracted value is returned as the `JsVal` it is — when the leaf field is
absent the source returns `undefined` rather than throwing. -/
def handleResponse (provider : LLMProvider) (resp : HttpResponse) :
    Except LLMError JsVal :=
  if ¬ resp.ok then
    .error (.providerError (providerErrorLabel provider ++ ": "
      ++ toString resp.status ++ " - " ++ resp.statusText))
  else
    let extract :=
      match provider with
      | .openai => extractOpenAI
      | .anthropic => extractAnthropic
      | .gemini => extractGemini
      | .ollama => extractOllama
      | .local_ => extractOpenAI
      | .enterprise => extractEnterprise
      | .apigee => fun _ => .error "unreachable"
    match extract resp.body with
    | .ok v => .ok v
    | .error e => .error (.typeError e)

/-- The source's `callLLM`, with the network explicit: build the request
(fail fast on a missing required field or an unsupported provider), send it
through `net`, handle the response. The outer try/catch of the source
logs and rethrows, changing nothing observable. -/
def callLLM (cfg : LLMConfig) (prompt : String) (net : Request → HttpResponse) :
    Except LLMError JsVal :=
  match buildRequest cfg prompt with
  | .error e => .error e
  | .ok req => handleResponse cfg.provider (net req)

/-! ## Shared test fixtures and helper definitions for the theorems -/

/-- The fail-fast message of the adapter selected by each provider (the
string thrown by `callX` when its required field is missing; Ollama never
fail-fasts and Apigee throws the unsupported message instead). -/
def requiredFieldMsg : LLMProvider → String
  | .openai => "OpenAI API key not configured"
  | .anthropic => "Anthropic API key not configured"
  | .gemini => "Google Gemini API key not configured"
  | .local_ => "Local LLM base URL not configured"
  | .enterprise => "Enterprise LLM base URL not configured"
  | .ollama => ""
  | .apigee => ""

/-- A network that answers every request with the same response (used to
instantiate the network argument at concrete inputs). -/
def constNet (r : HttpResponse) : Request → HttpResponse := fun _ => r

/-- An environment with no variable set. -/
def emptyEnv : Env := fun _ => none

/-- An environment with every variable set (to `"1"`). -/
def allSetEnv : Env := fun _ => some "1"

/-- The URL of a built request, when one was built. -/
def requestUrlOf (x : Except LLMError Request) : Option String :=
  match x with
  | .ok req => some req.url
  | .error _ => none

/-- A complete Enterprise configuration used as a concrete fixture. -/
def enterpriseTestConfig : LLMConfig :=
  { provider := .enterprise, model := "m", apiKey := some "k",
    baseUrl := some "http://llm.internal", temperature := some 0,
    maxTokens := some 100, timeout := 300 }

/-- An optional string field of a JSON object: present with the given
string value, or absent. -/
def optField (k : String) (v : Option String) : List (String × JsVal) :=
  match v with
  | some s => [(k, .str s)]
  | none => []

/-- An Enterprise response body whose `response`, `text` and `content`
top-level fields are each an optional string. -/
def enterpriseBody (r t c : Option String) : JsVal :=
  .obj (optField "response" r ++ optField "text" t ++ optField "content" c)

/-- A candidate the resolver's scan accepts: its environment key is truthy
and its configuration builds without throwing and reports available. -/
def candidateUsable (c : Candidate) (env : Env) : Bool :=
  truthyStr (env c.envKey) &&
    (match createConfigForProvider c.provider env with
      | some config => LLMClient.isAvailable config
      | none => false)

/-- An environment with exactly one variable set. -/
def singleEnv (key value : String) : Env :=
  fun k => if k = key then some value else none

/-- An environment with exactly two variables set. -/
def doubleEnv (k1 v1 k2 v2 : String) : Env :=
  fun k => if k = k1 then some v1 else if k = k2 then some v2 else none

/-- Modelled from the spec's words ("first non-empty of `response`, `text`,
`content` top-level fields, in that priority order"): the reference
selection rule the Enterprise extraction is compared against. -/
def pickNonEmpty (o : Option String) : Option String :=
  match o with
  | some s => if s = "" then none else some s
  | none => none

/-- Modelled from the spec's words: the first non-empty of the three fields
in priority order `response` > `text` > `content`. -/
def firstNonEmptyField (r t c : Option String) : Option String :=
  match pickNonEmpty r with
  | some s => some s
  | none =>
    match pickNonEmpty t with
    | some s => some s
    | none => pickNonEmpty c

/-- C1: `isAvailable()` is pure (it is a total Lean function of the
configuration, with no effect model) and follows the per-provider rule:
for OpenAI, Anthropic and Gemini it is true iff the credential is present
(truthy); for Ollama and Local iff the base-URL is present; for Enterprise
iff both are present; for Apigee it is false for every configuration. -/
theorem isAvailable_per_provider_rule (cfg : LLMConfig) :
    ((cfg.provider = .openai ∨ cfg.provider = .anthropic ∨ cfg.provider = .gemini) →
      (LLMClient.isAvailable cfg = true ↔ truthyStr cfg.apiKey = true)) ∧
    ((cfg.provider = .ollama ∨ cfg.provider = .local_) →
      (LLMClient.isAvailable cfg = true ↔ truthyStr cfg.baseUrl = true)) ∧
    (cfg.provider = .enterprise →
      (LLMClient.isAvailable cfg = true ↔
        (truthyStr cfg.baseUrl = true ∧ truthyStr cfg.apiKey = true))) ∧
    (cfg.provider = .apigee → LLMClient.isAvailable cfg = false) := by
  obtain ⟨p, m, k, b, t, mt, tm⟩ := cfg
  cases p <;>
    simp [LLMClient.isAvailable]

/-- Witness for C1: a concrete OpenAI configuration with a credential is
available, and the same configuration without one is not. -/
theorem isAvailable_per_provider_rule_witness :
    LLMClient.isAvailable
      { provider := .openai, model := "gpt-4", apiKey := some "sk-1",
        temperature := some 0, maxTokens := some 16, timeout := 300 } = true ∧
    LLMClient.isAvailable
      { provider := .openai, model := "gpt-4", apiKey := none,
        temperature := some 0, maxTokens := some 16, timeout := 300 } = false := by
  constructor
  · exact ((isAvailable_per_provider_rule _).1 (Or.inl rfl)).mpr (by decide)
  · have h := ((isAvailable_per_provider_rule
      { provider := .openai, model := "gpt-4", apiKey := none,
        temperature := some 0, maxTokens := some 16, timeout := 300 }).1
      (Or.inl rfl))
    simp only [show truthyStr (none : Option String) = false from rfl] at h
    simpa using h

/-- C4: when the required field of the selected adapter is absent (the
credential for OpenAI, Anthropic or Gemini; the base-URL for Local or
Enterprise), `callLLM` fails with the adapter's `ConfigurationError` —
already at the request-building phase, and with the same outcome for every
network, i.e. no HTTP request is ever performed. -/
theorem missing_required_field_fails_before_network (cfg : LLMConfig)
    (prompt : String) (net : Request → HttpResponse)
    (h : ((cfg.provider = .openai ∨ cfg.provider = .anthropic ∨
            cfg.provider = .gemini) ∧ truthyStr cfg.apiKey = false) ∨
         ((cfg.provider = .local_ ∨ cfg.provider = .enterprise) ∧
            truthyStr cfg.baseUrl = false)) :
    buildRequest cfg prompt = .error (.configError (requiredFieldMsg cfg.provider)) ∧
    callLLM cfg prompt net = .error (.configError (requiredFieldMsg cfg.provider)) := by
  obtain ⟨p, m, k, b, t, mt, tm⟩ := cfg
  rcases h with ⟨hp, hk⟩ | ⟨hp, hb⟩
  · rcases hp with hp | hp | hp <;> cases hp <;>
      simp_all [buildRequest, callLLM, requiredFieldMsg]
  · rcases hp with hp | hp <;> cases hp <;>
      simp_all [buildRequest, callLLM, requiredFieldMsg]

/-- Witness for C4: a concrete OpenAI configuration with no credential
fails with the configuration error under a concrete network that would
answer 200. -/
theorem missing_required_field_fails_before_network_witness :
    callLLM
      { provider := .openai, model := "gpt-4", apiKey := none,
        temperature := some 0, maxTokens := some 16, timeout := 300 } "hi"
      (constNet { ok := true, status := 200, statusText := "OK", body := .obj [] })
      = .error (.configError "OpenAI API key not configured") :=
  (missing_required_field_fails_before_network
    { provider := .openai, model := "gpt-4", apiKey := none,
      temperature := some 0, maxTokens := some 16, timeout := 300 } "hi"
    (constNet { ok := true, status := 200, statusText := "OK", body := .obj [] })
    (Or.inl ⟨Or.inl rfl, rfl⟩)).2

/-- C6: on every configuration whose provider is Apigee, `callLLM` fails
with the fixed "requires additional configuration" error regardless of the
other fields, the prompt and the network — the request-building phase
already throws, so no network I/O can occur. -/
theorem apigee_always_unsupported (cfg : LLMConfig) (prompt : String)
    (net : Request → HttpResponse) (h : cfg.provider = .apigee) :
    buildRequest cfg prompt =
      .error (.unsupported "Apigee integration requires additional configuration") ∧
    callLLM cfg prompt net =
      .error (.unsupported "Apigee integration requires additional configuration") := by
  obtain ⟨p, m, k, b, t, mt, tm⟩ := cfg
  cases h
  simp [buildRequest, callLLM]

/-- Witness for C6: a fully-populated Apigee configuration still fails with
the fixed unsupported-provider error. -/
theorem apigee_always_unsupported_witness :
    callLLM
      { provider := .apigee, model := "m", apiKey := some "k",
        baseUrl := some "http://a", temperature := some 0,
        maxTokens := some 16, timeout := 300 } "hi"
      (constNet { ok := true, status := 200, statusText := "OK", body := .obj [] })
      = .error (.unsupported "Apigee integration requires additional configuration") :=
  (apigee_always_unsupported _ "hi" _ rfl).2

/-- C3 (divergence record): on the Enterprise adapter a 2xx body that
contains none of `response`, `text`, `content` is NOT an error — the source
evaluates `data.response || data.text || data.content` to `undefined` and
returns it, so `callLLM` succeeds with the absent value instead of failing
with a malformed-response `ProviderError` as the specification requires. -/
theorem enterprise_empty_body_returns_undefined :
    callLLM enterpriseTestConfig "p"
      (constNet { ok := true, status := 200, statusText := "OK", body := .obj [] })
      = .ok .undefined ∧
    callLLM
      { provider := .openai, model := "gpt-4", apiKey := some "k",
        temperature := some 0, maxTokens := some 16, timeout := 300 } "p"
      (constNet { ok := true, status := 200, statusText := "OK",
                  body := .obj [("choices", .arr [.obj [("message", .obj [])]])] })
      = .ok .undefined := ⟨rfl, rfl⟩

/-- Evaluation of the Enterprise extraction on a body of optional string
fields: the first truthy of `response` and `text`, else the raw value of
`content` (`undefined` when absent). -/
theorem extractEnterprise_enterpriseBody (r t c : Option String) :
    extractEnterprise (enterpriseBody r t c) =
      .ok (match pickNonEmpty r with
        | some s => .str s
        | none =>
          match pickNonEmpty t with
          | some s => .str s
          | none =>
            match c with
            | some s => .str s
            | none => .undefined) := by
  rcases r with _ | r <;> rcases t with _ | t <;> rcases c with _ | c <;>
    simp [extractEnterprise, enterpriseBody, optField, JsVal.getField,
      JsVal.truthy, pickNonEmpty, List.lookup] <;>
    split_ifs <;> simp_all

/-- C5: the Enterprise adapter extracts the returned text as the first
non-empty of the top-level string fields `response`, `text`, `content`, in
that priority order (general refinement against the spec-side rule
`firstNonEmptyField`), and on the claim's two instances a 2xx body
`{"text":"x"}` yields `"x"` while `{"response":"y","text":"z"}` yields
`"y"`. -/
theorem enterprise_extraction_priority :
    (∀ r t c v, firstNonEmptyField r t c = some v →
      extractEnterprise (enterpriseBody r t c) = .ok (.str v)) ∧
    callLLM enterpriseTestConfig "p"
      (constNet { ok := true, status := 200, statusText := "OK",
                  body := .obj [("text", .str "x")] }) = .ok (.str "x") ∧
    callLLM enterpriseTestConfig "p"
      (constNet { ok := true, status := 200, statusText := "OK",
                  body := .obj [("response", .str "y"), ("text", .str "z")] })
      = .ok (.str "y") := by
  refine ⟨?_, rfl, rfl⟩
  intro r t c v h
  rw [extractEnterprise_enterpriseBody]
  simp only [firstNonEmptyField] at h
  rcases hr : pickNonEmpty r with _ | s <;> rw [hr] at h
  · rcases ht : pickNonEmpty t with _ | s <;> rw [ht] at h
    · rcases c with _ | c
      · simp [pickNonEmpty] at h
      · simp only [pickNonEmpty] at h
        split_ifs at h
        simp_all
    · simp_all
  · simp_all

/-- Witness for C5: an empty `response` is skipped and the non-empty `text`
field is the extracted value. -/
theorem enterprise_extraction_priority_witness :
    firstNonEmptyField (some "") (some "z") none = some "z" ∧
    extractEnterprise (enterpriseBody (some "") (some "z") none) = .ok (.str "z") :=
  ⟨rfl, enterprise_extraction_priority.1 (some "") (some "z") none "z" rfl⟩

/-- C9, counterexample: a Gemini configuration carrying a base-URL override
still sends its request to the public Google endpoint — the URL is the
model-scoped `generativelanguage.googleapis.com` endpoint and does not
start with the configured base-URL, refuting "for every provider ... the
outbound request is sent to an endpoint derived from that base-URL". -/
theorem gemini_base_url_ignored_counterexample :
    requestUrlOf (buildRequest
      { provider := .gemini, model := "gemini-pro", apiKey := some "k",
        baseUrl := some "http://custom.example", temperature := some 0,
        maxTokens := some 16, timeout := 300 } "p") =
      some "https://generativelanguage.googleapis.com/v1beta/models/gemini-pro:generateContent?key=k" ∧
    List.isPrefixOf "http://custom.example".data
      "https://generativelanguage.googleapis.com/v1beta/models/gemini-pro:generateContent?key=k".data
      = false := by
  refine ⟨rfl, ?_⟩
  set_option maxRecDepth 8192 in decide

/-- C9, amended: every provider that reaches the network derives its
endpoint from a truthy base-URL override — `baseUrl + "/v1/chat/completions"`
for OpenAI and Local, `baseUrl + "/v1/messages"` for Anthropic,
`baseUrl + "/api/chat"` for Ollama, and the base-URL verbatim for
Enterprise — except the Gemini adapter, which ignores the configured
base-URL (`GEMINI_BASE_URL` is read into the configuration but never used)
and always targets the public model-scoped Google endpoint. -/
theorem base_url_override_endpoints (cfg : LLMConfig) (prompt b : String)
    (hb : cfg.baseUrl = some b) (hbne : b ≠ "") :
    (cfg.provider = .openai → truthyStr cfg.apiKey = true →
      requestUrlOf (buildRequest cfg prompt) = some (b ++ "/v1/chat/completions")) ∧
    (cfg.provider = .anthropic → truthyStr cfg.apiKey = true →
      requestUrlOf (buildRequest cfg prompt) = some (b ++ "/v1/messages")) ∧
    (cfg.provider = .ollama →
      requestUrlOf (buildRequest cfg prompt) = some (b ++ "/api/chat")) ∧
    (cfg.provider = .local_ →
      requestUrlOf (buildRequest cfg prompt) = some (b ++ "/v1/chat/completions")) ∧
    (cfg.provider = .enterprise →
      requestUrlOf (buildRequest cfg prompt) = some b) ∧
    (cfg.provider = .gemini → truthyStr cfg.apiKey = true →
      requestUrlOf (buildRequest cfg prompt) =
        some ("https://generativelanguage.googleapis.com/v1beta/models/"
          ++ cfg.model ++ ":generateContent?key=" ++ strOf cfg.apiKey)) := by
  obtain ⟨p, m, k, b', t, mt, tm⟩ := cfg
  simp only at hb
  subst hb
  refine ⟨?_, ?_, ?_, ?_, ?_, ?_⟩ <;> intro hp <;> cases hp <;>
    first
    | (intro hk
       simp_all [buildRequest, requestUrlOf, ternaryUrl, truthyStr, strOf])
    | simp_all [buildRequest, requestUrlOf, ternaryUrl, truthyStr, strOf]

/-- Witness for C9's amended theorem: a concrete OpenAI configuration with
a base-URL override posts to that base-URL plus the chat-completions
path. -/
theorem base_url_override_endpoints_witness :
    requestUrlOf (buildRequest
      { provider := .openai, model := "gpt-4", apiKey := some "k",
        baseUrl := some "http://proxy.example", temperature := some 0,
        maxTokens := some 16, timeout := 300 } "p") =
      some ("http://proxy.example" ++ "/v1/chat/completions") :=
  (base_url_override_endpoints
    { provider := .openai, model := "gpt-4", apiKey := some "k",
      baseUrl := some "http://proxy.example", temperature := some 0,
      maxTokens := some 16, timeout := 300 } "p" "http://proxy.example"
    rfl (by decide)).1 rfl rfl

/-- The resolver's loop is the first-match scan: it returns the built
configuration of the first candidate whose key is truthy and whose
configuration builds and reports available. -/
theorem scanProviders_eq_find (l : List Candidate) (env : Env) :
    scanProviders l env =
      (l.find? (fun c => candidateUsable c env)).bind
        (fun c => createConfigForProvider c.provider env) := by
  induction l with
  | nil => rfl
  | cons c rest ih =>
    by_cases h1 : truthyStr (env c.envKey)
    · rcases h2 : createConfigForProvider c.provider env with _ | config
      · simp [scanProviders, List.find?, candidateUsable, h1, h2, ih]
      · by_cases h3 : LLMClient.isAvailable config
        · simp [scanProviders, List.find?, candidateUsable, h1, h2, h3]
        · simp [scanProviders, List.find?, candidateUsable, h1, h2, h3, ih]
    · simp [scanProviders, List.find?, candidateUsable, h1, ih]

/-- C2: `createLLMClientFromEnv` returns the configuration of the first
candidate — in the fixed priority order OpenAI, Anthropic, Gemini,
Enterprise, Local, Ollama with the required keys `OPENAI_API_KEY`,
`ANTHROPIC_API_KEY`, `GEMINI_API_KEY`, `ENTERPRISE_LLM_URL`,
`LOCAL_LLM_URL`, `OLLAMA_HOST` — whose required key is present and whose
built configuration is available; in particular, whenever `OPENAI_API_KEY`
(and possibly also `OLLAMA_HOST`) is set, it returns the OpenAI
configuration. -/
theorem resolver_priority_scan (env : Env) :
    createLLMClientFromEnv env =
      (([⟨.openai, "OPENAI_API_KEY"⟩,
         ⟨.anthropic, "ANTHROPIC_API_KEY"⟩,
         ⟨.gemini, "GEMINI_API_KEY"⟩,
         ⟨.enterprise, "ENTERPRISE_LLM_URL"⟩,
         ⟨.local_, "LOCAL_LLM_URL"⟩,
         ⟨.ollama, "OLLAMA_HOST"⟩] : List Candidate).find?
          (fun c => candidateUsable c env)).bind
        (fun c => createConfigForProvider c.provider env) ∧
    (truthyStr (env "OPENAI_API_KEY") = true →
      truthyStr (env "OLLAMA_HOST") = true →
      createLLMClientFromEnv env = createConfigForProvider .openai env) := by
  constructor
  · exact scanProviders_eq_find envProviders env
  · intro h1 _h2
    simp [createLLMClientFromEnv, envProviders, scanProviders,
      createConfigForProvider, LLMClient.isAvailable, h1]

/-- Witness for C2: with both `OPENAI_API_KEY` and `OLLAMA_HOST` set, the
resolver returns the OpenAI configuration. -/
theorem resolver_priority_scan_witness :
    truthyStr (doubleEnv "OPENAI_API_KEY" "sk" "OLLAMA_HOST" "http://o" "OPENAI_API_KEY")
      = true ∧
    createLLMClientFromEnv (doubleEnv "OPENAI_API_KEY" "sk" "OLLAMA_HOST" "http://o") =
      createConfigForProvider .openai
        (doubleEnv "OPENAI_API_KEY" "sk" "OLLAMA_HOST" "http://o") :=
  ⟨by decide,
   (resolver_priority_scan (doubleEnv "OPENAI_API_KEY" "sk" "OLLAMA_HOST" "http://o")).2
     (by decide) (by decide)⟩

/-- The string `||`-default is taken exactly when the environment value is
falsy. -/
theorem orDefault_falsy (v : Option String) (d : String)
    (h : truthyStr v = false) : orDefault v d = d := by
  rcases v with _ | s
  · rfl
  · simp [truthyStr] at h
    simp [orDefault, h]

/-- `parseFloat` on the temperature default literal. -/
theorem parseFloat_tenth : parseFloat "0.1" = some (1 / 10) := by
  have hdata : "0.1".data = ['0', '.', '1'] := rfl
  simp [parseFloat, hdata, natOfDigits]

/-- `parseInt` on the max-tokens default literal. -/
theorem parseInt_4000 : parseInt "4000" = some 4000 := by
  have hdata : "4000".data = ['4', '0', '0', '0'] := rfl
  simp [parseInt, hdata, natOfDigits]

/-- C7: with `ANTHROPIC_API_KEY` truthy, `OPENAI_API_KEY` falsy and the
Anthropic override variables unset, the resolver returns the Anthropic
configuration with model `claude-3-sonnet-20240229`, temperature `0.1`,
max-tokens `4000` and timeout `300`. -/
theorem resolver_anthropic_defaults (env : Env)
    (hA : truthyStr (env "ANTHROPIC_API_KEY") = true)
    (hO : truthyStr (env "OPENAI_API_KEY") = false)
    (hM : truthyStr (env "ANTHROPIC_MODEL") = false)
    (hT : truthyStr (env "ANTHROPIC_TEMPERATURE") = false)
    (hX : truthyStr (env "ANTHROPIC_MAX_TOKENS") = false) :
    createLLMClientFromEnv env = some
      { provider := .anthropic,
        model := "claude-3-sonnet-20240229",
        apiKey := env "ANTHROPIC_API_KEY",
        baseUrl := env "ANTHROPIC_BASE_URL",
        temperature := some (1 / 10),
        maxTokens := some 4000,
        timeout := 300 } := by
  have hm := orDefault_falsy (env "ANTHROPIC_MODEL") "claude-3-sonnet-20240229" hM
  have ht := orDefault_falsy (env "ANTHROPIC_TEMPERATURE") "0.1" hT
  have hx := orDefault_falsy (env "ANTHROPIC_MAX_TOKENS") "4000" hX
  simp [createLLMClientFromEnv, envProviders, scanProviders,
    createConfigForProvider, LLMClient.isAvailable, hA, hO, hm, ht, hx,
    parseFloat_tenth, parseInt_4000]

/-- Witness for C7: the concrete environment holding only
`ANTHROPIC_API_KEY`. -/
theorem resolver_anthropic_defaults_witness :
    createLLMClientFromEnv (singleEnv "ANTHROPIC_API_KEY" "key") = some
      { provider := .anthropic,
        model := "claude-3-sonnet-20240229",
        apiKey := some "key",
        baseUrl := none,
        temperature := some (1 / 10),
        maxTokens := some 4000,
        timeout := 300 } := by
  have h := resolver_anthropic_defaults (singleEnv "ANTHROPIC_API_KEY" "key")
    (by decide) (by decide) (by decide) (by decide) (by decide)
  simpa [singleEnv] using h

/-- A scan over candidates none of whose keys is truthy finds nothing. -/
theorem scanProviders_all_falsy (l : List Candidate) (env : Env)
    (h : ∀ c ∈ l, truthyStr (env c.envKey) = false) :
    scanProviders l env = none := by
  induction l with
  | nil => rfl
  | cons c rest ih =>
    have hc := h c (List.mem_cons_self c rest)
    simp only [scanProviders, hc, Bool.false_eq_true, if_false]
    exact ih (fun d hd => h d (List.mem_cons_of_mem c hd))

/-- C8: when none of the six required environment keys is truthy the
resolver returns "no client" (`none`) rather than an error; and a candidate
whose configuration building throws (`none`) is logged and skipped — the
scan of the remaining candidates is unchanged, so one candidate's failure
never prevents the rest from being tried. -/
theorem resolver_no_keys_and_continue :
    (∀ env : Env, (∀ c ∈ envProviders, truthyStr (env c.envKey) = false) →
      createLLMClientFromEnv env = none) ∧
    (∀ (c : Candidate) (rest : List Candidate) (env : Env),
      createConfigForProvider c.provider env = none →
      scanProviders (c :: rest) env = scanProviders rest env) := by
  constructor
  · intro env h
    exact scanProviders_all_falsy envProviders env h
  · intro c rest env h
    by_cases h1 : truthyStr (env c.envKey) <;> simp [scanProviders, h1, h]

/-- Witness for C8: the empty environment resolves to "no client", and a
candidate whose configuration building throws (an Apigee candidate) is
skipped even though its key is set. -/
theorem resolver_no_keys_and_continue_witness :
    createLLMClientFromEnv emptyEnv = none ∧
    scanProviders [⟨.apigee, "X"⟩] allSetEnv = scanProviders [] allSetEnv :=
  ⟨resolver_no_keys_and_continue.1 emptyEnv (by decide),
   resolver_no_keys_and_continue.2 ⟨.apigee, "X"⟩ [] allSetEnv rfl⟩

/-- A configuration whose base-URL was defaulted through `||` with a
non-empty default always has a truthy base-URL. -/
theorem truthyStr_some_orDefault (v : Option String) (d : String)
    (hd : d ≠ "") : truthyStr (some (orDefault v d)) = true := by
  rcases v with _ | s
  · simp [orDefault, truthyStr, hd]
  · by_cases hs : s = "" <;> simp [orDefault, truthyStr, hs, hd]

/-- C10: in the resolver's scan, every candidate other than Enterprise
whose required key is truthy builds a configuration that reports available
(the key itself is the credential for OpenAI, Anthropic and Gemini, and
Local and Ollama always receive a non-empty base-URL); the Enterprise
candidate builds successfully but is available exactly when
`ENTERPRISE_LLM_API_KEY` is also truthy — it is the only candidate that can
build yet be skipped as unavailable. -/
theorem scan_candidates_available_invariant :
    (∀ env : Env, ∀ c ∈ envProviders, c.provider ≠ .enterprise →
      truthyStr (env c.envKey) = true →
      (createConfigForProvider c.provider env).map LLMClient.isAvailable =
        some true) ∧
    (∀ env : Env, truthyStr (env "ENTERPRISE_LLM_URL") = true →
      (createConfigForProvider .enterprise env).map LLMClient.isAvailable =
        some (truthyStr (env "ENTERPRISE_LLM_API_KEY"))) := by
  constructor
  · intro env c hc hne ht
    have hl := truthyStr_some_orDefault (env "LOCAL_LLM_URL")
      "http://localhost:1234/v1" (by decide)
    have ho := truthyStr_some_orDefault (env "OLLAMA_HOST")
      "http://localhost:11434" (by decide)
    fin_cases hc <;>
      simp_all [createConfigForProvider, LLMClient.isAvailable]
  · intro env ht
    simp [createConfigForProvider, LLMClient.isAvailable, ht]

/-- Witness for C10: a concrete OpenAI candidate with its key set is built
available, and a concrete Enterprise environment without
`ENTERPRISE_LLM_API_KEY` is built but unavailable. -/
theorem scan_candidates_available_invariant_witness :
    (createConfigForProvider .openai (singleEnv "OPENAI_API_KEY" "sk")).map
      LLMClient.isAvailable = some true ∧
    (createConfigForProvider .enterprise
        (singleEnv "ENTERPRISE_LLM_URL" "http://e")).map LLMClient.isAvailable =
      some (truthyStr
        (singleEnv "ENTERPRISE_LLM_URL" "http://e" "ENTERPRISE_LLM_API_KEY")) :=
  ⟨scan_candidates_available_invariant.1 (singleEnv "OPENAI_API_KEY" "sk")
     ⟨.openai, "OPENAI_API_KEY"⟩ (by decide) (by decide) (by decide),
   scan_candidates_available_invariant.2 (singleEnv "ENTERPRISE_LLM_URL" "http://e")
     (by decide)⟩

end Appraisal
